import Mathlib

/-!
Shallow embedding of the voice-relay server core:

* `Session`            — src/unnamed/part_005 (class Session)
* `SessionManager`     — src/server/src/session/SessionManager.ts
* the message handlers — src/server/src/websocket/MessageHandler.ts (class MessageHandler)
* the connection layer — src/unnamed/part_008 (class WebSocketServer)

Binary buffers are lists of bytes (`List Nat`); JS in-place mutation is modelled by
explicit state passing, with mutated sessions written back into the registry map
(in the source the map holds a reference, so a mutation is immediately visible there).
`Date.now()` is threaded as an explicit `now : Nat` argument.  Base64 decoding of
inbound chunk payloads (`Buffer.from(chunk, base64)`) is an uninterpreted parameter
`b64decode : String → ByteBuf`; outbound audio chunks are carried as raw bytes (the
source base64-encodes them for transport, which is a bijective transport detail).
-/

namespace VoiceRelay

abbrev ByteBuf := List Nat

/-- Association-list model of a JS `Map`: unique keys by construction,
insertion order preserved, `set` replaces in place, `delete` removes the key. -/
def mapSet {α β : Type} [DecidableEq α] : List (α × β) → α → β → List (α × β)
  | [], k, v => [(k, v)]
  | p :: rest, k, v => if p.1 = k then (k, v) :: rest else p :: mapSet rest k v

def mapGet {α β : Type} [DecidableEq α] : List (α × β) → α → Option β
  | [], _ => none
  | p :: rest, k => if p.1 = k then some p.2 else mapGet rest k

def mapDelete {α β : Type} [DecidableEq α] : List (α × β) → α → List (α × β)
  | [], _ => []
  | p :: rest, k => if p.1 = k then mapDelete rest k else p :: mapDelete rest k

/-- `export type SessionState = 'recording' | 'processing' | 'complete' | 'error'` -/
inductive SessionState where
  | recording
  | processing
  | complete
  | error
deriving DecidableEq, Repr

/-- The `Session` class of src/unnamed/part_005. -/
structure Session where
  sessionId : String
  audioChunks : List ByteBuf
  transcript : String
  llmResponse : String
  state : SessionState
  createdAt : Nat
  audioBuffer : Option ByteBuf
deriving DecidableEq, Repr

/-- The constructor together with the field initializers. -/
def Session.new (sessionId : String) (now : Nat) : Session :=
  { sessionId := sessionId
    audioChunks := []
    transcript := ""
    llmResponse := ""
    state := .recording
    createdAt := now
    audioBuffer := none }

/-- `addAudioChunk(chunk: Buffer | string)` — a base64 string payload or a raw buffer. -/
inductive ChunkInput where
  | b64str (s : String)
  | raw (b : ByteBuf)
deriving DecidableEq, Repr

def Session.addAudioChunk (b64decode : String → ByteBuf) (s : Session) (chunk : ChunkInput) : Session :=
  let buffer := match chunk with
    | .b64str str => b64decode str
    | .raw b => b
  { s with audioChunks := s.audioChunks ++ [buffer] }

/-- `getAudioBuffer()`: materializes `Buffer.concat(this.audioChunks)` at most once and
caches it; returns the cached buffer untouched on every later call. -/
def Session.getAudioBuffer (s : Session) : ByteBuf × Session :=
  match s.audioBuffer with
  | some buf => (buf, s)
  | none =>
      let buf := s.audioChunks.flatten
      (buf, { s with audioBuffer := some buf })

def Session.setTranscript (s : Session) (transcript : String) : Session :=
  { s with transcript := transcript }

def Session.appendLlmResponse (s : Session) (chunk : String) : Session :=
  { s with llmResponse := s.llmResponse ++ chunk }

def Session.setState (s : Session) (state : SessionState) : Session :=
  { s with state := state }

def Session.cleanup (s : Session) : Session :=
  { s with audioChunks := [], audioBuffer := none }

/-- `isExpired(maxDuration)`: `Date.now() - this.createdAt > maxDuration` (strict). -/
def Session.isExpired (s : Session) (now maxDuration : Nat) : Bool :=
  now - s.createdAt > maxDuration

def Session.getDuration (s : Session) (now : Nat) : Nat :=
  now - s.createdAt

/-- The `SessionManager` registry: `private sessions = new Map<string, Session>()`. -/
structure SessionManager where
  sessions : List (String × Session)
deriving DecidableEq, Repr

def SessionManager.createSession (mgr : SessionManager) (now : Nat) (sessionId : String) :
    Session × SessionManager :=
  let session := Session.new sessionId now
  (session, { sessions := mapSet mgr.sessions sessionId session })

def SessionManager.getSession (mgr : SessionManager) (sessionId : String) : Option Session :=
  mapGet mgr.sessions sessionId

/-- `deleteSession(id)`: if present, `session.cleanup()` (in-place) then `sessions.delete(id)`.
The second component is the final state of the removed Session object (the source
mutates it in place, observable through outstanding references); `none` when absent. -/
def SessionManager.deleteSession (mgr : SessionManager) (sessionId : String) :
    SessionManager × Option Session :=
  match mapGet mgr.sessions sessionId with
  | some session =>
      let cleaned := session.cleanup
      ({ sessions := mapDelete mgr.sessions sessionId }, some cleaned)
  | none => (mgr, none)

def SessionManager.getAllSessions (mgr : SessionManager) : List Session :=
  mgr.sessions.map Prod.snd

def SessionManager.getSessionCount (mgr : SessionManager) : Nat :=
  mgr.sessions.length

/-- One pass of the cleanup interval body: iterate the entries, calling
`deleteSession` on each entry whose `isExpired(config.session.expirationTime)` holds. -/
def SessionManager.runCleanup (mgr : SessionManager) (now maxLifetime : Nat) : SessionManager :=
  mgr.sessions.foldl
    (fun acc p => if p.2.isExpired now maxLifetime then (acc.deleteSession p.1).1 else acc)
    mgr

/-! ### Wire envelopes -/

/-- The `data` payloads of the envelopes the server sends. -/
inductive EnvData where
  | errorData (code : String) (message : String)
  | sessionReady (maxAudioDuration chunkSize : Nat)
  | audioReceived (sequenceNumber : Nat)
  | transcriptComplete (transcript : String) (language : String)
  | llmChunk (content : String)
  | llmComplete (fullText : String)
  | audioChunkData (chunk : ByteBuf) (sequenceNumber : Nat)
  | audioComplete (totalSize : Nat)
  | sessionCancelled (message : String)
  | connectionEstablished (message : String)
deriving DecidableEq, Repr

/-- An outbound wire envelope.  `sessionId` and `timestamp` are `Option`s because two
sends in src/unnamed/part_008 build object literals that omit them. -/
structure Envelope where
  type : String
  sessionId : Option String
  timestamp : Option Nat
  data : EnvData
deriving DecidableEq, Repr

/-- Does the envelope carry all four wire fields `{type, sessionId, timestamp, data}`?
(`type` and `data` are structurally always present.) -/
def Envelope.hasAllFields (e : Envelope) : Bool :=
  e.sessionId.isSome && e.timestamp.isSome

def codeSessionNotFound : String := "SESSION_NOT_FOUND"
def codeUnknownMessageType : String := "UNKNOWN_MESSAGE_TYPE"
def codeAudioEndError : String := "AUDIO_END_ERROR"
def codeAudioChunkError : String := "AUDIO_CHUNK_ERROR"
def codeProcessingError : String := "PROCESSING_ERROR"
def codeMessageParseError : String := "MESSAGE_PARSE_ERROR"

def msgSessionNotFound (sessionId : String) : String := s!"Session {sessionId} not found"

def errorEnvelope (sessionId : String) (now : Nat) (code message : String) : Envelope :=
  { type := "error", sessionId := some sessionId, timestamp := some now,
    data := .errorData code message }

def sessionReadyEnvelope (sessionId : String) (now : Nat) : Envelope :=
  { type := "session.ready", sessionId := some sessionId, timestamp := some now,
    data := .sessionReady 30000 16384 }

def audioReceivedEnvelope (sessionId : String) (now : Nat) (sequenceNumber : Nat) : Envelope :=
  { type := "audio.received", sessionId := some sessionId, timestamp := some now,
    data := .audioReceived sequenceNumber }

def transcriptCompleteEnvelope (sessionId : String) (now : Nat) (transcript : String) : Envelope :=
  { type := "transcript.complete", sessionId := some sessionId, timestamp := some now,
    data := .transcriptComplete transcript "en" }

def llmChunkEnvelope (sessionId : String) (now : Nat) (content : String) : Envelope :=
  { type := "llm.chunk", sessionId := some sessionId, timestamp := some now,
    data := .llmChunk content }

def llmCompleteEnvelope (sessionId : String) (now : Nat) (fullText : String) : Envelope :=
  { type := "llm.complete", sessionId := some sessionId, timestamp := some now,
    data := .llmComplete fullText }

def audioChunkEnvelope (sessionId : String) (now : Nat) (chunk : ByteBuf) (sequenceNumber : Nat) :
    Envelope :=
  { type := "audio.chunk", sessionId := some sessionId, timestamp := some now,
    data := .audioChunkData chunk sequenceNumber }

def audioCompleteEnvelope (sessionId : String) (now : Nat) (totalSize : Nat) : Envelope :=
  { type := "audio.complete", sessionId := some sessionId, timestamp := some now,
    data := .audioComplete totalSize }

def sessionCancelledEnvelope (sessionId : String) (now : Nat) : Envelope :=
  { type := "session.cancelled", sessionId := some sessionId, timestamp := some now,
    data := .sessionCancelled "Session cancelled" }

/-- The greeting sent on connection in src/unnamed/part_008: the object literal has
`type`, `timestamp`, `data` — no `sessionId` field. -/
def connectionEstablishedEnvelope (now : Nat) : Envelope :=
  { type := "connection.established", sessionId := none, timestamp := some now,
    data := .connectionEstablished "Connected to server" }

/-- The envelope sent when an inbound frame fails to parse, in src/unnamed/part_008:
the object literal has only `type` and `data` — no `sessionId`, no `timestamp`. -/
def messageParseErrorEnvelope : Envelope :=
  { type := "error", sessionId := none, timestamp := none,
    data := .errorData codeMessageParseError "Failed to process message" }

/-! ### The external AI collaborator (OpenAIService), as consumed by the dispatcher -/

/-- Outcomes of the three external calls of one pipeline run.  `completionChunks` are
the fragments the completion stream delivers before it either ends (`completionFailure
= none`) or throws (`= some e`); `synthesizeSpeech` resolves to the whole audio buffer. -/
structure Collab where
  transcribe : ByteBuf → Except String String
  completionChunks : String → List String
  completionFailure : String → Option String
  synthesizeSpeech : String → Except String ByteBuf

/-! ### MessageHandler -/

def handleSessionStart (now : Nat) (mgr : SessionManager) (sessionId : String) :
    SessionManager × List Envelope :=
  let (_, mgr) := mgr.createSession now sessionId
  (mgr, [sessionReadyEnvelope sessionId now])

/-- `handleAudioChunk`: absent session ⇒ single SESSION_NOT_FOUND error; otherwise
append the chunk and acknowledge, echoing the client's sequence number.
(`addAudioChunk` is total here, so the AUDIO_CHUNK_ERROR catch branch is unreachable.) -/
def handleAudioChunk (b64decode : String → ByteBuf) (now : Nat) (mgr : SessionManager)
    (sessionId : String) (chunk : ChunkInput) (sequenceNumber : Nat) :
    SessionManager × List Envelope :=
  match mgr.getSession sessionId with
  | none =>
      (mgr, [errorEnvelope sessionId now codeSessionNotFound (msgSessionNotFound sessionId)])
  | some session =>
      let session := session.addAudioChunk b64decode chunk
      ({ sessions := mapSet mgr.sessions sessionId session },
       [audioReceivedEnvelope sessionId now sequenceNumber])

/-- The loop `for (let i = 0; i < audioBuffer.length; i += chunkSize)` with
`chunkSize = 4096`, emitting `audioBuffer.slice(i, i + chunkSize)` with
`sequenceNumber: Math.floor(i / chunkSize)`. -/
def emitAudioChunksFrom (sessionId : String) (now : Nat) (buf : ByteBuf) (i : Nat) :
    List Envelope :=
  if h : i < buf.length then
    audioChunkEnvelope sessionId now ((buf.drop i).take 4096) (i / 4096)
      :: emitAudioChunksFrom sessionId now buf (i + 4096)
  else []
termination_by buf.length - i
decreasing_by simp_wf; omega

/-- Body of `gptChunkHandler` together with the transcription step: the emissions and the
final session state of one `audio.end` pipeline run.  A transcription failure is caught
by the outer catch (AUDIO_END_ERROR); a completion-stream or synthesis failure by the
`.catch` on the scheduled task (PROCESSING_ERROR).  No failure branch changes the
session's state, so it stays `processing`. -/
def audioEndEmissions (col : Collab) (now : Nat) (sessionId : String) (session : Session)
    (audioBuffer : ByteBuf) : Session × List Envelope :=
  match col.transcribe audioBuffer with
  | .error _ =>
      (session, [errorEnvelope sessionId now codeAudioEndError "Failed to process audio"])
  | .ok transcript =>
      let session := session.setTranscript transcript
      let tEnv := transcriptCompleteEnvelope sessionId now transcript
      let chunks := col.completionChunks transcript
      let llmEnvs := chunks.map (llmChunkEnvelope sessionId now)
      let fullResponse := String.join chunks
      match col.completionFailure transcript with
      | some _ =>
          (session, tEnv :: llmEnvs
            ++ [errorEnvelope sessionId now codeProcessingError "Error processing audio response"])
      | none =>
          match col.synthesizeSpeech fullResponse with
          | .error _ =>
              (session, tEnv :: llmEnvs
                ++ [llmCompleteEnvelope sessionId now fullResponse,
                    errorEnvelope sessionId now codeProcessingError "Error processing audio response"])
          | .ok outBuf =>
              (session.setState .complete,
               tEnv :: llmEnvs
                 ++ llmCompleteEnvelope sessionId now fullResponse
                   :: emitAudioChunksFrom sessionId now outBuf 0
                 ++ [audioCompleteEnvelope sessionId now outBuf.length])

/-- Result of `handleAudioEnd`: the registry afterwards, the envelopes sent on the
originating connection in order, and — as an observer of the interaction with the
collaborator — the buffer passed to `openaiService.transcribe` (none when the
SESSION_NOT_FOUND branch returns early). -/
structure AudioEndResult where
  mgr : SessionManager
  sent : List Envelope
  transcribedBuffer : Option ByteBuf
deriving DecidableEq, Repr

def handleAudioEnd (col : Collab) (now : Nat) (mgr : SessionManager) (sessionId : String) :
    AudioEndResult :=
  match mgr.getSession sessionId with
  | none =>
      ⟨mgr, [errorEnvelope sessionId now codeSessionNotFound (msgSessionNotFound sessionId)], none⟩
  | some session =>
      let session1 := session.setState .processing
      let res := session1.getAudioBuffer
      let audioBuffer := res.1
      let emres := audioEndEmissions col now sessionId res.2 audioBuffer
      ⟨{ sessions := mapSet mgr.sessions sessionId emres.1 }, emres.2, some audioBuffer⟩

def handleSessionCancel (now : Nat) (mgr : SessionManager) (sessionId : String) :
    SessionManager × List Envelope :=
  ((mgr.deleteSession sessionId).1, [sessionCancelledEnvelope sessionId now])

/-- Inbound client messages, as dispatched on `message.type`. -/
inductive ClientMessage where
  | sessionStart
  | audioChunk (chunk : ChunkInput) (sequenceNumber : Nat)
  | audioEnd
  | sessionCancel
  | unknown (t : String)
deriving Repr

/-- The `switch (message.type)` dispatcher of `MessageHandler.handle`. -/
def handle (col : Collab) (b64decode : String → ByteBuf) (now : Nat) (mgr : SessionManager)
    (sessionId : String) (msg : ClientMessage) : SessionManager × List Envelope :=
  match msg with
  | .sessionStart => handleSessionStart now mgr sessionId
  | .audioChunk chunk seqNo => handleAudioChunk b64decode now mgr sessionId chunk seqNo
  | .audioEnd =>
      let r := handleAudioEnd col now mgr sessionId
      (r.mgr, r.sent)
  | .sessionCancel => handleSessionCancel now mgr sessionId
  | .unknown t =>
      (mgr, [errorEnvelope sessionId now codeUnknownMessageType (s!"Unknown message type: {t}")])

/-! ### WebSocketServer connection layer (src/unnamed/part_008) -/

/-- Server-side connection state: `clientSessions = new Map<WebSocket, string>()`
(connections are identified by `Nat` here) plus the owned `SessionManager`. -/
structure WSState where
  clientSessions : List (Nat × String)
  sessionManager : SessionManager
deriving DecidableEq, Repr

/-- The `ws.on(close)` handler: `this.clientSessions.delete(ws)` and nothing else. -/
def handleClose (st : WSState) (ws : Nat) : WSState :=
  { st with clientSessions := mapDelete st.clientSessions ws }

/-! ### Observers on emitted envelope streams -/

/-- The sequence numbers of the `audio.chunk` envelopes of a stream, in emission order. -/
def audioChunkSeqNums (envs : List Envelope) : List Nat :=
  envs.filterMap (fun e =>
    match e.data with
    | .audioChunkData _ n => some n
    | _ => none)

/-- The `content` payloads of the `llm.chunk` envelopes of a stream, in emission order. -/
def llmChunkContents (envs : List Envelope) : List String :=
  envs.filterMap (fun e =>
    match e.data with
    | .llmChunk c => some c
    | _ => none)

/-! ### Concrete fixtures used by witnesses and counterexamples -/

/-- A decode stub standing in for `Buffer.from(chunk, base64)` in concrete runs. -/
def noDecode : String → ByteBuf := fun _ => []

/-- A collaborator whose calls all fail. -/
def failingCollab : Collab :=
  { transcribe := fun _ => .error ("transcribe down")
    completionChunks := fun _ => []
    completionFailure := fun _ => none
    synthesizeSpeech := fun _ => .error ("tts down") }

/-- The round-trip collaborator stub of spec §8: transcript `hello`, completion
fragments `hi` and ` there`, four bytes of synthesized audio. -/
def roundCollab : Collab :=
  { transcribe := fun _ => .ok ("hello")
    completionChunks := fun _ => ["hi", " there"]
    completionFailure := fun _ => none
    synthesizeSpeech := fun _ => .ok ([65, 65, 66, 66]) }

/-- A session in the `recording` state holding one audio chunk. -/
def fxSession : Session :=
  { sessionId := "s1", audioChunks := [[1]], transcript := "", llmResponse := "",
    state := .recording, createdAt := 0, audioBuffer := none }

def fxMgr : SessionManager := ⟨[("s1", fxSession)]⟩

/-- A session whose pipeline already reached the terminal `complete` state. -/
def fxCompleteSession : Session :=
  { sessionId := "s6", audioChunks := [[1]], transcript := "t", llmResponse := "r",
    state := .complete, createdAt := 0, audioBuffer := none }

def fxCompleteMgr : SessionManager := ⟨[("s6", fxCompleteSession)]⟩

/-- Registry with one expired session (age 10 at now = 10) and one whose age equals
the threshold exactly (age 5 at now = 10, threshold 5). -/
def fxOldSession : Session :=
  { sessionId := "a", audioChunks := [], transcript := "", llmResponse := "",
    state := .recording, createdAt := 0, audioBuffer := none }

def fxYoungSession : Session :=
  { sessionId := "b", audioChunks := [], transcript := "", llmResponse := "",
    state := .processing, createdAt := 5, audioBuffer := none }

def fxSweepMgr : SessionManager := ⟨[("a", fxOldSession), ("b", fxYoungSession)]⟩

/-- Connection layer state with two live connections and one registered session. -/
def fxWSState : WSState :=
  { clientSessions := [(1, "s1"), (2, "s2")], sessionManager := fxMgr }

/-! ### Lemmas about the JS-Map model -/

theorem mapGet_mapSet_self {α β : Type} [DecidableEq α] (m : List (α × β)) (k : α) (v : β) :
    mapGet (mapSet m k v) k = some v := by
  induction m with
  | nil => simp [mapSet, mapGet]
  | cons p rest ih =>
      by_cases h : p.1 = k
      · simp [mapSet, mapGet, h]
      · simp [mapSet, mapGet, h, ih]

theorem mapGet_mapDelete_self {α β : Type} [DecidableEq α] (m : List (α × β)) (k : α) :
    mapGet (mapDelete m k) k = none := by
  induction m with
  | nil => simp [mapDelete, mapGet]
  | cons p rest ih => by_cases h : p.1 = k <;> simp [mapDelete, mapGet, h, ih]

theorem mapGet_mapDelete_ne {α β : Type} [DecidableEq α] (m : List (α × β)) (k k2 : α)
    (h : k2 ≠ k) : mapGet (mapDelete m k) k2 = mapGet m k2 := by
  induction m with
  | nil => rfl
  | cons p rest ih =>
      by_cases hp : p.1 = k
      · have hk : ¬ (k = k2) := fun e => h e.symm
        simp [mapDelete, mapGet, hp, hk, ih]
      · by_cases hq : p.1 = k2 <;> simp [mapDelete, mapGet, hp, hq, ih, h]

theorem mem_mapDelete {α β : Type} [DecidableEq α] (m : List (α × β)) (k : α) (a : α × β) :
    a ∈ mapDelete m k ↔ a ∈ m ∧ a.1 ≠ k := by
  induction m with
  | nil => simp [mapDelete]
  | cons p rest ih =>
      by_cases h : p.1 = k
      · simp only [mapDelete, if_pos h, ih, List.mem_cons]
        constructor
        · exact fun ⟨ha, hne⟩ => ⟨Or.inr ha, hne⟩
        · rintro ⟨rfl | ha, hne⟩
          · exact absurd h hne
          · exact ⟨ha, hne⟩
      · simp only [mapDelete, if_neg h, List.mem_cons, ih]
        constructor
        · rintro (rfl | ⟨ha, hne⟩)
          · exact ⟨Or.inl rfl, h⟩
          · exact ⟨Or.inr ha, hne⟩
        · rintro ⟨rfl | ha, hne⟩
          · exact Or.inl rfl
          · exact Or.inr ⟨ha, hne⟩

theorem mapGet_eq_none_iff {α β : Type} [DecidableEq α] (m : List (α × β)) (k : α) :
    mapGet m k = none ↔ ∀ v, (k, v) ∉ m := by
  induction m with
  | nil => simp [mapGet]
  | cons p rest ih =>
      by_cases h : p.1 = k
      · constructor
        · intro hc; simp [mapGet, h] at hc
        · intro hall
          exfalso
          apply hall p.2
          have hp : (k, p.2) = p := by
            obtain ⟨p1, p2⟩ := p
            simpa using h.symm
          rw [hp]
          exact List.mem_cons_self p rest
      · simp only [mapGet, if_neg h, ih, List.mem_cons]
        constructor
        · intro hall v hv
          rcases hv with h1 | h2
          · exact h (by rw [← h1])
          · exact hall v h2
        · intro hall v hv
          exact hall v (Or.inr hv)

theorem mapDelete_eq_of_mapGet_none {α β : Type} [DecidableEq α] (m : List (α × β)) (k : α)
    (h : mapGet m k = none) : mapDelete m k = m := by
  induction m with
  | nil => rfl
  | cons p rest ih =>
      by_cases hp : p.1 = k
      · simp [mapGet, hp] at h
      · simp only [mapGet, if_neg hp] at h
        simp [mapDelete, hp, ih h]

/-! ### Claims -/

/-- C4: for every `audio.chunk` or `audio.end` whose sessionId is not in the registry,
the dispatcher emits exactly one `error` envelope with code SESSION_NOT_FOUND on the same
connection, does not create a session, and leaves the registry (hence every existing
session) unchanged. -/
theorem sessionNotFound_no_side_effect
    (col : Collab) (b64decode : String → ByteBuf) (now : Nat) (mgr : SessionManager)
    (sessionId : String) (chunk : ChunkInput) (seqNo : Nat)
    (habs : mgr.getSession sessionId = none) :
    handleAudioChunk b64decode now mgr sessionId chunk seqNo =
      (mgr, [errorEnvelope sessionId now codeSessionNotFound (msgSessionNotFound sessionId)]) ∧
    handleAudioEnd col now mgr sessionId =
      ⟨mgr, [errorEnvelope sessionId now codeSessionNotFound (msgSessionNotFound sessionId)],
        none⟩ := by
  refine ⟨?_, ?_⟩ <;> simp [handleAudioChunk, handleAudioEnd, habs]

/-- Witness for C4 at the empty registry. -/
theorem sessionNotFound_no_side_effect_witness :
    ((SessionManager.mk []).getSession ("w4") = none) ∧
    (handleAudioChunk noDecode 5 (SessionManager.mk []) ("w4") (.raw [1]) 0 =
        ((SessionManager.mk []),
         [errorEnvelope ("w4") 5 codeSessionNotFound (msgSessionNotFound ("w4"))]) ∧
     handleAudioEnd failingCollab 5 (SessionManager.mk []) ("w4") =
      ⟨(SessionManager.mk []),
       [errorEnvelope ("w4") 5 codeSessionNotFound (msgSessionNotFound ("w4"))], none⟩) :=
  ⟨rfl,
   sessionNotFound_no_side_effect failingCollab noDecode 5 (SessionManager.mk [])
     ("w4") (.raw [1]) 0 rfl⟩

/-- C8: `session.cancel` removes the id from the registry (a subsequent get is absent,
whatever the pipeline state), the removed session's chunks and cached buffer are cleared,
the delete is an error-free no-op when the id is absent, and exactly one
`session.cancelled` envelope is emitted either way. -/
theorem sessionCancel_removes_and_cleans (now : Nat) (mgr : SessionManager)
    (sessionId : String) :
    ((handleSessionCancel now mgr sessionId).1).getSession sessionId = none ∧
    (∀ s, mgr.getSession sessionId = some s →
        (mgr.deleteSession sessionId).2 = some s.cleanup ∧
        s.cleanup.audioChunks = [] ∧ s.cleanup.audioBuffer = none) ∧
    (mgr.getSession sessionId = none → (mgr.deleteSession sessionId).1 = mgr) ∧
    (handleSessionCancel now mgr sessionId).2 = [sessionCancelledEnvelope sessionId now] := by
  refine ⟨?_, ?_, ?_, rfl⟩
  · cases h : mgr.getSession sessionId with
    | none =>
        simp [handleSessionCancel, SessionManager.deleteSession, SessionManager.getSession,
          show mapGet mgr.sessions sessionId = none from h]
    | some s =>
        simp [handleSessionCancel, SessionManager.deleteSession, SessionManager.getSession,
          show mapGet mgr.sessions sessionId = some s from h, mapGet_mapDelete_self]
  · intro s hs
    refine ⟨?_, rfl, rfl⟩
    simp [SessionManager.deleteSession, show mapGet mgr.sessions sessionId = some s from hs]
  · intro h
    simp [SessionManager.deleteSession, show mapGet mgr.sessions sessionId = none from h]

/-- Witness for C8 on a one-session registry, with a present and an absent id. -/
theorem sessionCancel_removes_and_cleans_witness :
    (fxMgr.getSession ("s1") = some fxSession) ∧
    ((handleSessionCancel 3 fxMgr ("s1")).1.getSession ("s1") = none) ∧
    ((fxMgr.deleteSession ("s1")).2 = some fxSession.cleanup ∧
      fxSession.cleanup.audioChunks = [] ∧ fxSession.cleanup.audioBuffer = none) ∧
    (fxMgr.getSession ("zz") = none ∧ (fxMgr.deleteSession ("zz")).1 = fxMgr) ∧
    ((handleSessionCancel 3 fxMgr ("s1")).2 = [sessionCancelledEnvelope ("s1") 3]) :=
  ⟨rfl,
   (sessionCancel_removes_and_cleans 3 fxMgr ("s1")).1,
   (sessionCancel_removes_and_cleans 3 fxMgr ("s1")).2.1 fxSession rfl,
   ⟨rfl, (sessionCancel_removes_and_cleans 3 fxMgr ("zz")).2.2.1 rfl⟩,
   (sessionCancel_removes_and_cleans 3 fxMgr ("s1")).2.2.2⟩

/-- C10: closing a connection removes only that connection's association; other
connections' associations, the registry's contents and every Session are unchanged. -/
theorem close_drops_only_association (st : WSState) (ws : Nat) :
    (handleClose st ws).sessionManager = st.sessionManager ∧
    mapGet (handleClose st ws).clientSessions ws = none ∧
    (∀ w, w ≠ ws → mapGet (handleClose st ws).clientSessions w = mapGet st.clientSessions w) ∧
    (∀ id, (handleClose st ws).sessionManager.getSession id =
      st.sessionManager.getSession id) := by
  refine ⟨rfl, ?_, ?_, fun _ => rfl⟩
  · exact mapGet_mapDelete_self st.clientSessions ws
  · exact fun w hw => mapGet_mapDelete_ne st.clientSessions ws w hw

/-- Witness for C10: closing connection 1 of the two-connection fixture. -/
theorem close_drops_only_association_witness :
    ((handleClose fxWSState 1).sessionManager = fxWSState.sessionManager) ∧
    (mapGet (handleClose fxWSState 1).clientSessions 1 = none) ∧
    ((2 : Nat) ≠ 1 ∧
      mapGet (handleClose fxWSState 1).clientSessions 2 = mapGet fxWSState.clientSessions 2) ∧
    ((handleClose fxWSState 1).sessionManager.getSession ("s1") =
      fxWSState.sessionManager.getSession ("s1")) :=
  ⟨(close_drops_only_association fxWSState 1).1,
   (close_drops_only_association fxWSState 1).2.1,
   ⟨by decide, (close_drops_only_association fxWSState 1).2.2.1 2 (by decide)⟩,
   (close_drops_only_association fxWSState 1).2.2.2 ("s1")⟩

/-- C5 (code bug, flagged by spec §3/§9): once `getAudioBuffer` has cached the buffer,
a further `addAudioChunk` does not invalidate the cache and the stale buffer is
returned: after caching `[1]` and appending `[2]`, `getAudioBuffer` still returns `[1]`
although the chunks now concatenate to `[1, 2]`. -/
theorem staleAudioBufferDemo :
    (((((Session.new ("s1") 0).addAudioChunk noDecode (.raw [1])).getAudioBuffer).2.addAudioChunk
        noDecode (.raw [2])).getAudioBuffer).1 = [1] ∧
    (((((Session.new ("s1") 0).addAudioChunk noDecode
        (.raw [1])).getAudioBuffer).2.addAudioChunk noDecode (.raw [2])).audioChunks.flatten
      = [1, 2]) := by
  refine ⟨rfl, rfl⟩

/-- C1 (code bug): when transcription fails on `audio.end`, the handler emits an
AUDIO_END_ERROR `error` envelope on the originating connection, but never calls
`setState(error)`: the session stays in `processing` (the `error` member of
SessionState is never assigned anywhere in the source). -/
theorem pipelineFailureLeavesProcessing :
    ((handleAudioEnd failingCollab 7 fxMgr ("s1")).mgr.getSession ("s1")).map Session.state
        = some .processing ∧
    (handleAudioEnd failingCollab 7 fxMgr ("s1")).sent =
      [errorEnvelope ("s1") 7 codeAudioEndError ("Failed to process audio")] := by
  refine ⟨rfl, rfl⟩

theorem getAudioBuffer_state (s : Session) : ((s.getAudioBuffer).2).state = s.state := by
  cases h : s.audioBuffer <;> simp [Session.getAudioBuffer, h]

theorem audioEndEmissions_state (col : Collab) (now : Nat) (sessionId : String) (s : Session)
    (buf : ByteBuf) :
    (audioEndEmissions col now sessionId s buf).1.state = s.state ∨
    (audioEndEmissions col now sessionId s buf).1.state = SessionState.complete := by
  cases h1 : col.transcribe buf with
  | error e => left; simp [audioEndEmissions, h1]
  | ok t =>
      cases h2 : col.completionFailure t with
      | some e => left; simp [audioEndEmissions, h1, h2, Session.setTranscript]
      | none =>
          cases h3 : col.synthesizeSpeech (String.join (col.completionChunks t)) with
          | error e => left; simp [audioEndEmissions, h1, h2, h3, Session.setTranscript]
          | ok outBuf => right; simp [audioEndEmissions, h1, h2, h3, Session.setState]

/-- C6 counterexample: a session whose state is the terminal `complete` is moved back to
`processing` by a further `audio.end` addressed to it (here one whose transcription
fails, so the run stops right after the state change). -/
theorem terminalStateNotEnforced :
    fxCompleteSession.state = SessionState.complete ∧
    ((handleAudioEnd failingCollab 9 fxCompleteMgr ("s6")).mgr.getSession ("s6")).map
        Session.state = some SessionState.processing :=
  ⟨rfl, rfl⟩

/-- C6 amended: `complete`/`error` are not enforced as terminal states.  A handler other
than `audio.end` (here `audio.chunk`) never changes an existing session's state, but a
further `audio.end` on the same session always sets it back to `processing` (and to
`complete` only if the re-run pipeline finishes). -/
theorem terminal_states_not_reentered_except_audioEnd
    (col : Collab) (b64decode : String → ByteBuf) (now : Nat) (mgr : SessionManager)
    (sessionId : String) (chunk : ChunkInput) (seqNo : Nat) :
    (∀ s, mgr.getSession sessionId = some s →
        ((handleAudioChunk b64decode now mgr sessionId chunk seqNo).1.getSession
            sessionId).map Session.state = some s.state) ∧
    (∀ s, mgr.getSession sessionId = some s →
        ((handleAudioEnd col now mgr sessionId).mgr.getSession sessionId).map Session.state
            = some SessionState.processing ∨
        ((handleAudioEnd col now mgr sessionId).mgr.getSession sessionId).map Session.state
            = some SessionState.complete) := by
  constructor
  · intro s hs
    have hs2 : mapGet mgr.sessions sessionId = some s := hs
    simp [handleAudioChunk, SessionManager.getSession, hs2, mapGet_mapSet_self,
      Session.addAudioChunk]
  · intro s hs
    have hs2 : mapGet mgr.sessions sessionId = some s := hs
    have h2 : (((s.setState SessionState.processing).getAudioBuffer).2).state
        = SessionState.processing := by
      rw [getAudioBuffer_state]; simp [Session.setState]
    rcases audioEndEmissions_state col now sessionId
        (((s.setState SessionState.processing).getAudioBuffer).2)
        (((s.setState SessionState.processing).getAudioBuffer).1) with h | h
    · left
      simp [handleAudioEnd, SessionManager.getSession, hs2, mapGet_mapSet_self, h, h2]
    · right
      simp [handleAudioEnd, SessionManager.getSession, hs2, mapGet_mapSet_self, h]

/-- Witness for the C6 amended theorem on the `complete` fixture session. -/
theorem terminal_states_not_reentered_except_audioEnd_witness :
    (fxCompleteMgr.getSession ("s6") = some fxCompleteSession) ∧
    ((handleAudioChunk noDecode 1 fxCompleteMgr ("s6") (.raw [3]) 0).1.getSession
        ("s6")).map Session.state = some fxCompleteSession.state ∧
    (((handleAudioEnd failingCollab 1 fxCompleteMgr ("s6")).mgr.getSession ("s6")).map
        Session.state = some SessionState.processing ∨
      ((handleAudioEnd failingCollab 1 fxCompleteMgr ("s6")).mgr.getSession ("s6")).map
        Session.state = some SessionState.complete) :=
  ⟨rfl,
   (terminal_states_not_reentered_except_audioEnd failingCollab noDecode 1 fxCompleteMgr
       ("s6") (.raw [3]) 0).1 fxCompleteSession rfl,
   (terminal_states_not_reentered_except_audioEnd failingCollab noDecode 1 fxCompleteMgr
       ("s6") (.raw [3]) 0).2 fxCompleteSession rfl⟩

theorem foldChunks_getSession (b64decode : String → ByteBuf) (now : Nat) (sessionId : String) :
    ∀ (payloads : List (String × Nat)) (mgr : SessionManager) (s : Session),
      mgr.getSession sessionId = some s →
      ((payloads.foldl
          (fun m p => (handleAudioChunk b64decode now m sessionId (.b64str p.1) p.2).1)
          mgr).getSession sessionId)
        = some { s with
            audioChunks := s.audioChunks ++ payloads.map (fun p => b64decode p.1) } := by
  intro payloads
  induction payloads with
  | nil => intro mgr s hs; simpa using hs
  | cons p rest ih =>
      intro mgr s hs
      have hs2 : mapGet mgr.sessions sessionId = some s := hs
      have hstep : ((handleAudioChunk b64decode now mgr sessionId (.b64str p.1) p.2).1).getSession
          sessionId = some (s.addAudioChunk b64decode (.b64str p.1)) := by
        simp [handleAudioChunk, SessionManager.getSession, hs2, mapGet_mapSet_self]
      rw [List.foldl_cons, ih _ _ hstep]
      simp [Session.addAudioChunk]

/-- C3: for a freshly created session followed by any sequence of `audio.chunk` messages
and one `audio.end`, the buffer handed to `transcribe` is the byte-for-byte
concatenation, in arrival order, of the base64-decoded chunk payloads. -/
theorem transcribe_receives_chunk_concatenation
    (col : Collab) (b64decode : String → ByteBuf) (now : Nat) (mgr0 : SessionManager)
    (sessionId : String) (payloads : List (String × Nat)) :
    (handleAudioEnd col now
        (payloads.foldl
          (fun m p => (handleAudioChunk b64decode now m sessionId (.b64str p.1) p.2).1)
          ((mgr0.createSession now sessionId).2))
        sessionId).transcribedBuffer
      = some ((payloads.map (fun p => b64decode p.1)).flatten) := by
  have h0 : ((mgr0.createSession now sessionId).2).getSession sessionId
      = some (Session.new sessionId now) := by
    simp [SessionManager.createSession, SessionManager.getSession, mapGet_mapSet_self]
  have h1 := foldChunks_getSession b64decode now sessionId payloads _ _ h0
  simp [handleAudioEnd, h1, Session.new, Session.setState, Session.getAudioBuffer]

theorem audioChunkSeqNums_emitAux (sessionId : String) (now : Nat) (buf : ByteBuf) :
    ∀ (n k : Nat), buf.length - 4096 * k ≤ n →
      audioChunkSeqNums (emitAudioChunksFrom sessionId now buf (4096 * k))
        = List.range' k ((buf.length - 4096 * k + 4095) / 4096) := by
  intro n
  induction n with
  | zero =>
      intro k hk
      have h0 : buf.length - 4096 * k = 0 := by omega
      have hge : ¬ (4096 * k < buf.length) := by omega
      rw [emitAudioChunksFrom, dif_neg hge, h0]
      have hr : (0 + 4095) / 4096 = 0 := by norm_num
      rw [hr]
      simp [audioChunkSeqNums]
  | succ n ih =>
      intro k hk
      by_cases hlt : 4096 * k < buf.length
      · rw [emitAudioChunksFrom, dif_pos hlt]
        have hnext : 4096 * k + 4096 = 4096 * (k + 1) := by ring
        rw [hnext]
        have hrec := ih (k + 1) (by omega)
        simp only [audioChunkSeqNums, List.filterMap_cons, audioChunkEnvelope] at hrec ⊢
        rw [hrec]
        have e1 : 4096 * k / 4096 = k := by omega
        have e2 : (buf.length - 4096 * k + 4095) / 4096
            = ((buf.length - 4096 * (k + 1) + 4095) / 4096) + 1 := by omega
        rw [e1, e2, List.range'_succ]
      · have h0 : buf.length - 4096 * k = 0 := by omega
        rw [emitAudioChunksFrom, dif_neg hlt, h0]
        have hr : (0 + 4095) / 4096 = 0 := by norm_num
        rw [hr]
        simp [audioChunkSeqNums]

/-- The synthesized-audio sequence numbers emitted by the 4096-byte chunking loop are
exactly 0, 1, 2, … independent of the bytes in each fragment. -/
theorem audioChunkSeqNums_emit (sessionId : String) (now : Nat) (buf : ByteBuf) :
    audioChunkSeqNums (emitAudioChunksFrom sessionId now buf 0)
      = List.range ((buf.length + 4095) / 4096) := by
  have h := audioChunkSeqNums_emitAux sessionId now buf buf.length 0 (by omega)
  simpa [List.range_eq_range'] using h

/-- C2: on an `audio.end` over an existing session in which all three external calls
succeed, the emitted stream is exactly one `transcript.complete`, then the `llm.chunk`s
in arrival order, then one `llm.complete` whose `fullText` is the concatenation of the
chunk contents, then the `audio.chunk`s with sequence numbers 0, 1, 2, … (independent of
fragment byte size), then one `audio.complete` whose `totalSize` is the synthesized byte
count. -/
theorem audioEnd_success_emission_order
    (col : Collab) (now : Nat) (mgr : SessionManager) (sessionId : String) (s : Session)
    (t : String) (outBuf : ByteBuf)
    (hs : mgr.getSession sessionId = some s)
    (ht : col.transcribe (((s.setState .processing).getAudioBuffer).1) = .ok t)
    (hc : col.completionFailure t = none)
    (hy : col.synthesizeSpeech (String.join (col.completionChunks t)) = .ok outBuf) :
    (handleAudioEnd col now mgr sessionId).sent
      = transcriptCompleteEnvelope sessionId now t
          :: (col.completionChunks t).map (llmChunkEnvelope sessionId now)
          ++ llmCompleteEnvelope sessionId now (String.join (col.completionChunks t))
            :: emitAudioChunksFrom sessionId now outBuf 0
          ++ [audioCompleteEnvelope sessionId now outBuf.length] ∧
    audioChunkSeqNums (emitAudioChunksFrom sessionId now outBuf 0)
      = List.range ((outBuf.length + 4095) / 4096) ∧
    llmChunkContents ((col.completionChunks t).map (llmChunkEnvelope sessionId now))
      = col.completionChunks t := by
  refine ⟨?_, audioChunkSeqNums_emit sessionId now outBuf, ?_⟩
  · simp [handleAudioEnd, hs, audioEndEmissions, ht, hc, hy]
  · induction col.completionChunks t with
    | nil => rfl
    | cons c cs ih => simpa [llmChunkContents, llmChunkEnvelope] using ih

/-- Witness for C2: the spec §8 round-trip stub on the one-chunk fixture session. -/
theorem audioEnd_success_emission_order_witness :
    (fxMgr.getSession ("s1") = some fxSession ∧
     roundCollab.transcribe (((fxSession.setState .processing).getAudioBuffer).1)
        = .ok ("hello") ∧
     roundCollab.completionFailure ("hello") = none ∧
     roundCollab.synthesizeSpeech (String.join (roundCollab.completionChunks ("hello")))
        = .ok ([65, 65, 66, 66])) ∧
    ((handleAudioEnd roundCollab 2 fxMgr ("s1")).sent
      = transcriptCompleteEnvelope ("s1") 2 ("hello")
          :: (roundCollab.completionChunks ("hello")).map (llmChunkEnvelope ("s1") 2)
          ++ llmCompleteEnvelope ("s1") 2
              (String.join (roundCollab.completionChunks ("hello")))
            :: emitAudioChunksFrom ("s1") 2 ([65, 65, 66, 66]) 0
          ++ [audioCompleteEnvelope ("s1") 2 (List.length [65, 65, 66, 66])] ∧
     audioChunkSeqNums (emitAudioChunksFrom ("s1") 2 ([65, 65, 66, 66]) 0)
      = List.range ((List.length [65, 65, 66, 66] + 4095) / 4096) ∧
     llmChunkContents ((roundCollab.completionChunks ("hello")).map (llmChunkEnvelope ("s1") 2))
      = roundCollab.completionChunks ("hello")) :=
  ⟨⟨rfl, rfl, rfl, rfl⟩,
   audioEnd_success_emission_order roundCollab 2 fxMgr ("s1") fxSession ("hello")
     ([65, 65, 66, 66]) rfl rfl rfl rfl⟩

theorem emit_hasAllFields (sessionId : String) (now : Nat) (buf : ByteBuf) :
    ∀ (n i : Nat), buf.length - i ≤ n →
      ∀ e ∈ emitAudioChunksFrom sessionId now buf i, e.hasAllFields = true := by
  intro n
  induction n with
  | zero =>
      intro i hi e he
      rw [emitAudioChunksFrom, dif_neg (by omega)] at he
      cases he
  | succ n ih =>
      intro i hi e he
      by_cases hlt : i < buf.length
      · rw [emitAudioChunksFrom, dif_pos hlt] at he
        rcases List.mem_cons.mp he with rfl | hrest
        · rfl
        · exact ih (i + 4096) (by omega) e hrest
      · rw [emitAudioChunksFrom, dif_neg hlt] at he
        cases he

theorem audioEndEmissions_hasAllFields (col : Collab) (now : Nat) (sessionId : String)
    (s : Session) (buf : ByteBuf) :
    ∀ e ∈ (audioEndEmissions col now sessionId s buf).2, e.hasAllFields = true := by
  intro e he
  cases h1 : col.transcribe buf with
  | error err =>
      simp [audioEndEmissions, h1] at he
      subst he; rfl
  | ok t =>
      cases h2 : col.completionFailure t with
      | some err =>
          simp [audioEndEmissions, h1, h2] at he
          rcases he with rfl | ⟨c, _, rfl⟩ | rfl <;> rfl
      | none =>
          cases h3 : col.synthesizeSpeech (String.join (col.completionChunks t)) with
          | error err =>
              simp [audioEndEmissions, h1, h2, h3] at he
              rcases he with rfl | ⟨c, _, rfl⟩ | rfl | rfl <;> rfl
          | ok outBuf =>
              simp [audioEndEmissions, h1, h2, h3] at he
              rcases he with rfl | ⟨c, _, rfl⟩ | rfl | hemit | rfl
              · rfl
              · rfl
              · rfl
              · exact emit_hasAllFields sessionId now outBuf outBuf.length 0 (by omega) e hemit
              · rfl

/-- C9 counterexample: two server-sent envelopes do not carry all four wire fields —
the `connection.established` greeting has no `sessionId`, and the MESSAGE_PARSE_ERROR
`error` envelope has neither `sessionId` nor `timestamp`. -/
theorem envelopeMissingFieldsDemo :
    (connectionEstablishedEnvelope 0).hasAllFields = false ∧
    (connectionEstablishedEnvelope 0).sessionId = none ∧
    messageParseErrorEnvelope.hasAllFields = false ∧
    messageParseErrorEnvelope.sessionId = none ∧
    messageParseErrorEnvelope.timestamp = none :=
  ⟨rfl, rfl, rfl, rfl, rfl⟩

/-- C9 amended: every envelope the MessageHandler dispatcher emits carries all four
wire-envelope fields, but of the two connection-layer sends, `connection.established`
omits `sessionId` and the MESSAGE_PARSE_ERROR envelope omits both `sessionId` and
`timestamp`. -/
theorem handler_envelopes_have_all_fields
    (col : Collab) (b64decode : String → ByteBuf) (now : Nat) (mgr : SessionManager)
    (sessionId : String) (msg : ClientMessage) :
    (∀ e ∈ (handle col b64decode now mgr sessionId msg).2, e.hasAllFields = true) ∧
    (connectionEstablishedEnvelope now).timestamp = some now ∧
    (connectionEstablishedEnvelope now).sessionId = none ∧
    messageParseErrorEnvelope.sessionId = none ∧
    messageParseErrorEnvelope.timestamp = none := by
  refine ⟨?_, rfl, rfl, rfl, rfl⟩
  intro e he
  cases msg with
  | sessionStart =>
      simp [handle, handleSessionStart] at he
      subst he; rfl
  | audioChunk c nn =>
      cases h : mgr.getSession sessionId with
      | none =>
          simp [handle, handleAudioChunk, h] at he
          subst he; rfl
      | some s =>
          simp [handle, handleAudioChunk, h] at he
          subst he; rfl
  | audioEnd =>
      cases h : mgr.getSession sessionId with
      | none =>
          simp [handle, handleAudioEnd, h] at he
          subst he; rfl
      | some s =>
          simp only [handle, handleAudioEnd, h] at he
          exact audioEndEmissions_hasAllFields col now sessionId
            (((s.setState SessionState.processing).getAudioBuffer).2)
            (((s.setState SessionState.processing).getAudioBuffer).1) e he
  | sessionCancel =>
      simp [handle, handleSessionCancel] at he
      subst he; rfl
  | unknown t =>
      simp [handle] at he
      subst he; rfl

/-- Witness for the C9 amended theorem: the `session.ready` reply to a `session.start`. -/
theorem handler_envelopes_have_all_fields_witness :
    ((sessionReadyEnvelope ("w9") 3) ∈
        (handle failingCollab noDecode 3 (SessionManager.mk []) ("w9") .sessionStart).2) ∧
    (sessionReadyEnvelope ("w9") 3).hasAllFields = true :=
  ⟨by simp [handle, handleSessionStart],
   (handler_envelopes_have_all_fields failingCollab noDecode 3 (SessionManager.mk [])
       ("w9") .sessionStart).1 (sessionReadyEnvelope ("w9") 3)
     (by simp [handle, handleSessionStart])⟩

theorem deleteSession_fst_sessions (mgr : SessionManager) (k : String) :
    ((mgr.deleteSession k).1).sessions = mapDelete mgr.sessions k := by
  cases h : mapGet mgr.sessions k with
  | some s => simp [SessionManager.deleteSession, h]
  | none => simp [SessionManager.deleteSession, h, mapDelete_eq_of_mapGet_none _ _ h]

theorem mem_runCleanup_aux (now maxLifetime : Nat) :
    ∀ (l : List (String × Session)) (acc : SessionManager) (a : String × Session),
      (a ∈ (l.foldl
          (fun acc p =>
            if p.2.isExpired now maxLifetime then (acc.deleteSession p.1).1 else acc)
          acc).sessions
        ↔ a ∈ acc.sessions ∧
            ∀ p ∈ l, p.2.isExpired now maxLifetime = true → a.1 ≠ p.1) := by
  intro l
  induction l with
  | nil => intro acc a; simp
  | cons p rest ih =>
      intro acc a
      rw [List.foldl_cons, ih]
      by_cases hexp : p.2.isExpired now maxLifetime = true
      · rw [if_pos hexp, deleteSession_fst_sessions, mem_mapDelete]
        constructor
        · rintro ⟨⟨ha, hne⟩, hrest⟩
          refine ⟨ha, ?_⟩
          intro q hq hqe
          rcases List.mem_cons.mp hq with rfl | hq2
          · exact hne
          · exact hrest q hq2 hqe
        · rintro ⟨ha, hall⟩
          exact ⟨⟨ha, hall p (List.mem_cons_self p rest) hexp⟩,
            fun q hq hqe => hall q (List.mem_cons.mpr (Or.inr hq)) hqe⟩
      · rw [if_neg hexp]
        constructor
        · rintro ⟨ha, hrest⟩
          refine ⟨ha, ?_⟩
          intro q hq hqe
          rcases List.mem_cons.mp hq with rfl | hq2
          · exact absurd hqe hexp
          · exact hrest q hq2 hqe
        · rintro ⟨ha, hall⟩
          exact ⟨ha, fun q hq hqe => hall q (List.mem_cons.mpr (Or.inr hq)) hqe⟩

theorem keys_nodup_unique :
    ∀ (l : List (String × Session)), (l.map Prod.fst).Nodup →
      ∀ (k : String) (s t : Session), (k, s) ∈ l → (k, t) ∈ l → s = t := by
  intro l
  induction l with
  | nil => intro _ k s t hs; cases hs
  | cons p rest ih =>
      intro hnd k s t hs ht
      rw [List.map_cons, List.nodup_cons] at hnd
      rcases List.mem_cons.mp hs with h1 | h1 <;> rcases List.mem_cons.mp ht with h2 | h2
      · exact congrArg Prod.snd (h1.trans h2.symm)
      · exfalso
        apply hnd.1
        exact List.mem_map.mpr ⟨(k, t), h2, by rw [← h1]⟩
      · exfalso
        apply hnd.1
        exact List.mem_map.mpr ⟨(k, s), h1, by rw [← h2]⟩
      · exact ih hnd.2 k s t h1 h2

/-- C7: under unique registry keys, the expiry sweep keeps a session entry iff its age
at sweep time is not strictly greater than the configured max lifetime (so deletion iff
`now - createdAt > maxLifetime`); an entry whose age equals the threshold is kept, and
an id absent at sweep time (e.g. created and cancelled earlier) stays absent. -/
theorem sweep_deletes_iff_expired (mgr : SessionManager) (now maxLifetime : Nat)
    (hkeys : (mgr.sessions.map Prod.fst).Nodup) :
    (∀ id s, (id, s) ∈ mgr.sessions →
        ((id, s) ∈ (mgr.runCleanup now maxLifetime).sessions
          ↔ ¬ (now - s.createdAt > maxLifetime))) ∧
    (∀ id s, (id, s) ∈ mgr.sessions → now - s.createdAt = maxLifetime →
        (id, s) ∈ (mgr.runCleanup now maxLifetime).sessions) ∧
    (∀ id, mgr.getSession id = none →
        (mgr.runCleanup now maxLifetime).getSession id = none) := by
  have hiff : ∀ id s, (id, s) ∈ mgr.sessions →
      ((id, s) ∈ (mgr.runCleanup now maxLifetime).sessions
        ↔ ¬ (now - s.createdAt > maxLifetime)) := by
    intro id s hmem
    unfold SessionManager.runCleanup
    rw [mem_runCleanup_aux now maxLifetime mgr.sessions mgr (id, s)]
    constructor
    · rintro ⟨_, hall⟩ hgt
      exact (hall (id, s) hmem (by simpa [Session.isExpired] using hgt)) rfl
    · intro hng
      refine ⟨hmem, ?_⟩
      intro p hp hpe heq
      obtain ⟨p1, p2⟩ := p
      have heq2 : id = p1 := heq
      subst heq2
      have hps : p2 = s := keys_nodup_unique mgr.sessions hkeys id p2 s hp hmem
      subst hps
      simp [Session.isExpired] at hpe
      exact hng hpe
  refine ⟨hiff, fun id s hmem hage => (hiff id s hmem).mpr (by omega), ?_⟩
  intro id hid
  rw [SessionManager.getSession, mapGet_eq_none_iff] at hid ⊢
  intro v hv
  unfold SessionManager.runCleanup at hv
  rw [mem_runCleanup_aux now maxLifetime mgr.sessions mgr (id, v)] at hv
  exact hid v hv.1

/-- Witness for C7: a sweep at now = 10 with threshold 5 over one expired session (age
10) and one whose age is exactly 5. -/
theorem sweep_deletes_iff_expired_witness :
    ((fxSweepMgr.sessions.map Prod.fst).Nodup) ∧
    (("a", fxOldSession) ∈ fxSweepMgr.sessions ∧
      ((("a", fxOldSession) ∈ (fxSweepMgr.runCleanup 10 5).sessions)
        ↔ ¬ (10 - fxOldSession.createdAt > 5))) ∧
    (("b", fxYoungSession) ∈ (fxSweepMgr.runCleanup 10 5).sessions) ∧
    ((fxSweepMgr.getSession ("zz") = none) ∧
      (fxSweepMgr.runCleanup 10 5).getSession ("zz") = none) :=
  ⟨by decide,
   ⟨by decide,
    (sweep_deletes_iff_expired fxSweepMgr 10 5 (by decide)).1 ("a") fxOldSession (by decide)⟩,
   (sweep_deletes_iff_expired fxSweepMgr 10 5 (by decide)).2.1 ("b") fxYoungSession
     (by decide) (by decide),
   ⟨rfl,
    (sweep_deletes_iff_expired fxSweepMgr 10 5 (by decide)).2.2 ("zz") rfl⟩⟩

end VoiceRelay
